import Mathlib

/-
Verification of the Resilience Controller and Background Task Executor of
the System Resilient App (an Electron desktop application).

The embedding below follows the canonical controller variant found in
src/unnamed/part_001 (the `SystemResilientApp` class of the LaunchAgent
variant, lines 167-970 of that file); the window close / before-quit veto
handlers and the start-heavy-task IPC handler are textually identical in
src/src/main.js.  Electron host semantics are modelled per the Electron
documentation: `app.quit()` emits `before-quit` (preventable), then closes
windows, then emits `will-quit`; `app.exit(code)` terminates immediately
with `code` and emits none of the quit events; an `app.quit()` teardown in
which no handler calls `process.exit` terminates with exit code 0.
-/

namespace ResilientApp

/-- A `BrowserWindow` handle as held by `this.mainWindow`. -/
structure Win where
  destroyed : Bool
  visible : Bool
deriving DecidableEq, Repr

/-- The mutable process environment: `process.env.LAUNCH_AGENT_RESTART === '1'`
(the supervisor-launch flag; `delete process.env.LAUNCH_AGENT_RESTART` clears it). -/
structure Env where
  launchAgentRestart : Bool
deriving DecidableEq, Repr

/-- The filesystem tokens the controller touches:
`/tmp/resilient_app_running.marker` (liveness/restart marker) and
`/tmp/intentional_quit.signal` (intentional-quit signal). -/
structure FS where
  runningMarker : Bool
  quitSignal : Bool
deriving DecidableEq, Repr

/-- A recorded process termination: the exit code and whether
`app.relaunch()` had been called before exiting. -/
structure ExitInfo where
  code : Nat
  relaunchScheduled : Bool
deriving DecidableEq, Repr

/-- Controller state: the fields of the `SystemResilientApp` object
(part_001 lines 174-196), the filesystem, the environment, plus the
pending `setTimeout` callbacks and the recorded exit, which in the source
live in the host event loop.  Each entry of `pendingCreates` is a
scheduled `createWindow` call: its delay in ms and whether the callback
re-checks `isQuitting` when it fires (the close-handler timer at lines
424-428 re-checks; the before-quit timer at 287-289 and the
closed/window-all-closed timers at 232-234, 439-441 do not). -/
structure Ctrl where
  env : Env
  fs : FS
  mainWindow : Option Win
  isQuitting : Bool
  isManualQuit : Bool
  isHeadlessMode : Bool
  isCreatingWindow : Bool
  readyToShowPending : Bool
  pendingCreates : List (Nat × Bool)
  pendingRelaunch : Option Nat
  relaunched : Bool
  exited : Option ExitInfo
  darwin : Bool
deriving DecidableEq, Repr

/-- `this.mainWindow && !this.mainWindow.isDestroyed()`. -/
def windowAlive (c : Ctrl) : Bool :=
  match c.mainWindow with
  | some w => !w.destroyed
  | none => false

/-- The window exists, is not destroyed, and is visible. -/
def windowVisible (c : Ctrl) : Bool :=
  match c.mainWindow with
  | some w => !w.destroyed && w.visible
  | none => false

/-- `this.mainWindow.hide()` guarded by existence/destruction as in the source. -/
def hideWindow (c : Ctrl) : Ctrl :=
  match c.mainWindow with
  | some w =>
    if !w.destroyed then { c with mainWindow := some { w with visible := false } } else c
  | none => c

/-- `this.mainWindow.show(); this.mainWindow.focus()`. -/
def showFocus (c : Ctrl) : Ctrl :=
  match c.mainWindow with
  | some w =>
    if !w.destroyed then { c with mainWindow := some { w with visible := true } } else c
  | none => c

/-- `cleanupQuitSignal` (part_001 lines 957-967): delete
`/tmp/intentional_quit.signal` if present. -/
def cleanupQuitSignal (fs : FS) : FS :=
  { fs with quitSignal := false }

/-- `markAppAsRunning` (part_001 lines 948-955): write the running marker. -/
def markAppAsRunning (fs : FS) : FS :=
  { fs with runningMarker := true }

/-- `cleanupRunningMarker` (part_001 lines 911-921): delete the running
marker.  Defined in the source but never invoked by any code path. -/
def cleanupRunningMarker (fs : FS) : FS :=
  { fs with runningMarker := false }

/-- `checkIfRestartAfterKill` (part_001 lines 932-945): report whether the
running marker exists and delete it. -/
def checkIfRestartAfterKill (fs : FS) : Bool × FS :=
  (fs.runningMarker, { fs with runningMarker := false })

/-- `createWindow` (part_001 lines 333-448).  If a live window exists it is
shown/focused unless running under the supervisor-launch flag.  Otherwise
the restart-after-kill check runs; under the launch flag with no marker
found the controller enters pure headless mode (writing the running
marker, creating no window); in every other case a fresh window is
constructed with `show: false`, to become visible at `ready-to-show`. -/
def createWindow (c : Ctrl) : Ctrl :=
  let isLAR := c.env.launchAgentRestart
  if windowAlive c then
    if !isLAR then showFocus c else c
  else
    let c := { c with isCreatingWindow := true }
    let chk := checkIfRestartAfterKill c.fs
    let wasKilled := chk.1
    let c := { c with fs := chk.2 }
    if isLAR && !wasKilled then
      { c with fs := markAppAsRunning c.fs,
               isHeadlessMode := true,
               mainWindow := none,
               isCreatingWindow := false }
    else
      { c with isHeadlessMode := false,
               mainWindow := some { destroyed := false, visible := false },
               readyToShowPending := true }

/-- The `ready-to-show` handler (part_001 lines 398-410): show and focus
the freshly constructed window and clear the creation flag. -/
def readyToShowEv (c : Ctrl) : Ctrl :=
  if c.readyToShowPending && windowAlive c then
    { (showFocus c) with isCreatingWindow := false, readyToShowPending := false }
  else c

/-- The window `closed` handler (part_001 lines 434-443): drop the handle,
clear the creation flag, and when not quitting schedule re-creation after
1000 ms. -/
def closedHandler (c : Ctrl) : Ctrl :=
  let c := { c with mainWindow := none, isCreatingWindow := false }
  if !c.isQuitting then
    { c with pendingCreates := c.pendingCreates ++ [(1000, false)] }
  else c

/-- The window `close` handler (part_001 lines 413-431, identical to
src/src/main.js lines 182-200): when not quitting the close is vetoed via
`event.preventDefault()` and the window hidden; off macOS a re-creation
checking `isQuitting` is scheduled after 2000 ms.  When quitting the close
proceeds and `closed` fires. -/
def closeGestureEv (c : Ctrl) : Ctrl :=
  if windowAlive c then
    if !c.isQuitting then
      let c := hideWindow c
      if !c.darwin then
        { c with pendingCreates := c.pendingCreates ++ [(2000, true)] }
      else c
    else closedHandler c
  else c

/-- The `will-quit` exit classifier (part_001 lines 294-304):
`process.exit(0)` when the quit was manual, `process.exit(1)` otherwise. -/
def willQuitCode (isManualQuit : Bool) : Nat :=
  if isManualQuit then 0 else 1

/-- The teardown that follows an unvetoed `app.quit()`: remaining windows
close (the `closed` handler runs with `isQuitting` set), then the
`will-quit` handler terminates the process through `willQuitCode`. -/
def proceedQuit (c : Ctrl) : Ctrl :=
  let c := if c.mainWindow.isSome then closedHandler c else c
  { c with exited := some { code := willQuitCode c.isManualQuit,
                            relaunchScheduled := c.relaunched } }

/-- The `before-quit` handler (part_001 lines 268-291): when `isQuitting`
is set the quit is allowed and `isManualQuit` recorded; otherwise the quit
is vetoed, the window hidden, and off macOS a re-creation scheduled after
2000 ms. -/
def beforeQuitEv (c : Ctrl) : Ctrl :=
  if c.isQuitting then
    proceedQuit { c with isManualQuit := true }
  else
    let c := hideWindow c
    if !c.darwin then
      { c with pendingCreates := c.pendingCreates ++ [(2000, false)] }
    else c

/-- An `app.quit()` call: it begins with the `before-quit` handler. -/
def appQuit (c : Ctrl) : Ctrl := beforeQuitEv c

/-- The sanctioned exit control: the force-quit IPC handler (part_001
lines 902-907) and the tray Force Quit item (lines 744-751) both set
`isQuitting` and `isManualQuit` and call `app.quit()`. -/
def forceQuit (c : Ctrl) : Ctrl :=
  appQuit { c with isQuitting := true, isManualQuit := true }

/-- `restartApp` (part_001 lines 923-929) as called from the
`uncaughtException` / `unhandledRejection` handlers (lines 307-315):
schedule a callback after 1000 ms. -/
def restartAppSchedule (c : Ctrl) : Ctrl :=
  { c with pendingRelaunch := some 1000 }

/-- The `restartApp` timer firing: `app.relaunch(); this.isQuitting = true;
app.exit(0)`.  `app.exit` terminates at once with the given code and emits
neither `before-quit` nor `will-quit`. -/
def fireRelaunch (c : Ctrl) : Ctrl :=
  match c.pendingRelaunch with
  | none => c
  | some _ =>
    { c with pendingRelaunch := none,
             relaunched := true,
             isQuitting := true,
             exited := some { code := 0, relaunchScheduled := true } }

/-- The `window-all-closed` handler (part_001 lines 227-238): off macOS,
when not quitting, schedule re-creation after 1000 ms. -/
def windowAllClosedEv (c : Ctrl) : Ctrl :=
  if windowAlive c then c
  else if !c.darwin && !c.isQuitting then
    { c with pendingCreates := c.pendingCreates ++ [(1000, false)] }
  else c

/-- A window destroyed outside the quit sequence (host-level surface
destruction): the `closed` handler fires. -/
def windowDestroyedEv (c : Ctrl) : Ctrl :=
  if c.mainWindow.isSome then closedHandler c else c

/-- A scheduled `createWindow` timer fires (FIFO).  A timer scheduled by
the close handler re-checks `isQuitting` before creating. -/
def timerCreateEv (c : Ctrl) : Ctrl :=
  match c.pendingCreates with
  | [] => c
  | (_, recheck) :: rest =>
    let c := { c with pendingCreates := rest }
    if recheck && c.isQuitting then c else createWindow c

/-- The `activate` handler (part_001 lines 240-265): ignored under the
supervisor-launch flag; from headless mode or with no live window the flag
is deleted and a window created; otherwise the window is shown/focused. -/
def activateEv (c : Ctrl) : Ctrl :=
  if c.env.launchAgentRestart then c
  else if c.isHeadlessMode || !windowAlive c then
    createWindow { c with env := { launchAgentRestart := false },
                          isHeadlessMode := false }
  else showFocus c

/-- `showUI` (part_001 lines 769-795), reached from SIGUSR1 (lines
318-321), the tray Show App item, and tray double-click: leave headless
mode, delete the launch flag, and create or show the window unless a
creation is already in progress. -/
def showUI (c : Ctrl) : Ctrl :=
  let c := { c with isHeadlessMode := false,
                    env := { launchAgentRestart := false } }
  if !windowAlive c then
    if c.isCreatingWindow then c else createWindow c
  else showFocus c

/-- The external events the controller reacts to. -/
inductive Ev
  | readyToShow
  | closeGesture
  | quitGesture
  | windowDestroyed
  | windowAllClosed
  | timerCreate
  | activate
  | sigusr1
  | forceQuitIPC
  | trayForceQuit
  | fault
  | relaunchTimer
deriving DecidableEq, Repr

/-- One controller step.  A process that has exited reacts to nothing. -/
def step (c : Ctrl) (e : Ev) : Ctrl :=
  if c.exited.isSome then c
  else
    match e with
    | .readyToShow => readyToShowEv c
    | .closeGesture => closeGestureEv c
    | .quitGesture => appQuit c
    | .windowDestroyed => windowDestroyedEv c
    | .windowAllClosed => windowAllClosedEv c
    | .timerCreate => timerCreateEv c
    | .activate => activateEv c
    | .sigusr1 => showUI c
    | .forceQuitIPC => forceQuit c
    | .trayForceQuit => forceQuit c
    | .fault => restartAppSchedule c
    | .relaunchTimer => fireRelaunch c

/-- Run a sequence of events. -/
def run (c : Ctrl) (tr : List Ev) : Ctrl :=
  tr.foldl step c

/-- The constructor (part_001 lines 174-196): all state flags start
cleared, the intentional-quit signal file is deleted. -/
def mkCtrl (env : Env) (fs : FS) (dar : Bool) : Ctrl :=
  { env := env
    fs := cleanupQuitSignal fs
    mainWindow := none
    isQuitting := false
    isManualQuit := false
    isHeadlessMode := false
    isCreatingWindow := false
    readyToShowPending := false
    pendingCreates := []
    pendingRelaunch := none
    relaunched := false
    exited := none
    darwin := dar }

/-- The `whenReady` startup (part_001 lines 215-225): tray setup, then
`createWindow` (restart-mechanism installation and IPC registration do not
touch the modelled state). -/
def boot (c : Ctrl) : Ctrl := createWindow c

/-- Events that are not a show-UI signal (dock activation, tray show /
SIGUSR1 both funnel through `showUI`). -/
def notShowEv (e : Ev) : Bool :=
  !(e == Ev.activate) && !(e == Ev.sigusr1)

/-- Close/quit gestures and the window events they trigger; the sanctioned
exit control and the fault/relaunch path are excluded. -/
def gestureEv (e : Ev) : Bool :=
  match e with
  | .readyToShow | .closeGesture | .quitGesture | .windowDestroyed
  | .windowAllClosed | .timerCreate | .activate | .sigusr1 => true
  | .forceQuitIPC | .trayForceQuit | .fault | .relaunchTimer => false

/-- State of a macOS instance sitting in pure headless mode under the
supervisor-launch flag: no window, no scheduled window creation. -/
def HeadlessInv (c : Ctrl) : Prop :=
  c.env.launchAgentRestart = true ∧ c.isHeadlessMode = true ∧
  c.mainWindow = none ∧ c.pendingCreates = [] ∧ c.darwin = true

/-- Invariant of a normally started session under close/quit gestures:
the quit flag was never raised, the process is alive, and whenever the
surface is gone a re-creation is already scheduled. -/
def ResilientInv (c : Ctrl) : Prop :=
  c.env.launchAgentRestart = false ∧ c.isQuitting = false ∧ c.exited = none ∧
  (windowAlive c = false → c.pendingCreates ≠ [])

end ResilientApp

namespace TaskExecutor

/-- The value a start-heavy-task promise resolves with:
`{ success: true, code }` or `{ success: false, error }` (part_001 lines
886-894, identical in src/src/main.js lines 431-439). -/
inductive TaskResult
  | ok (code : Option Int)
  | err (reason : String)
deriving DecidableEq, Repr

/-- The `success` field of a resolved value. -/
def TaskResult.success : TaskResult → Bool
  | .ok _ => true
  | .err _ => false

/-- Terminal events a spawned worker process can emit: `close` with its
exit code (null when killed by signal) or a spawn `error`. -/
inductive WorkerEv
  | close (code : Option Int)
  | spawnError (reason : String)
deriving DecidableEq, Repr

/-- What the handler's callbacks pass to `resolve` for each event:
`resolve({ success: true, code })` on `close`,
`resolve({ success: false, error: error.message })` on `error`. -/
def resultOf : WorkerEv → TaskResult
  | .close code => .ok code
  | .spawnError r => .err r

/-- JavaScript promise single-resolution: a later `resolve` on an already
resolved promise is ignored. -/
def resolveOnce (acc : Option TaskResult) (ev : WorkerEv) : Option TaskResult :=
  match acc with
  | some r => some r
  | none => some (resultOf ev)

/-- The final state of the promise after the worker emitted the given
terminal events in order. -/
def promiseResult (evs : List WorkerEv) : Option TaskResult :=
  evs.foldl resolveOnce none

/-- One in-flight task run from the host's point of view: a spawned worker
whose promise may or may not have resolved yet. -/
structure RunState where
  resolved : Option TaskResult
deriving DecidableEq, Repr

/-- All workers ever spawned by the start-heavy-task handler of one
controller process. -/
structure ExecState where
  runs : List RunState
deriving DecidableEq, Repr

/-- The start-heavy-task IPC handler (part_001 lines 867-896, identical in
src/src/main.js lines 412-441): it spawns a fresh worker and creates a
fresh promise unconditionally — the handler consults no state and applies
no guard against an already running worker. -/
def startHeavyTask (s : ExecState) : ExecState :=
  { runs := s.runs ++ [{ resolved := none }] }

/-- A run is Running while its promise is unresolved. -/
def isRunning (r : RunState) : Bool := r.resolved.isNone

/-- Number of Running task runs. -/
def runningCount (s : ExecState) : Nat :=
  (s.runs.filter isRunning).length

/-- Executor state before any task was started. -/
def execInit : ExecState := { runs := [] }

end TaskExecutor

namespace InitModel

/-- The actions `setupApp` (part_001 lines 198-331) can perform, in
program order: the single-instance lock request, the bare `app.quit()` of
a secondary instance, and the handler registrations of a primary.  The
`whenReady` callback (which creates the window, installs the restart
mechanism and registers IPC, spawning workers on request) runs only if
`onWhenReady` was registered. -/
inductive InitAction
  | requestLock
  | appQuitBare
  | onSecondInstance
  | onWhenReady
  | onWindowAllClosed
  | onActivate
  | onBeforeQuit
  | onWillQuit
  | onUncaughtException
  | onUnhandledRejection
  | onSigusr1
  | onSigint
  | setupTray
  | createWindow
  | setupRestartMechanism
  | setupIPC
deriving DecidableEq, Repr

/-- The body of the `whenReady` callback (part_001 lines 215-225). -/
def whenReadyBody : List InitAction :=
  [.setupTray, .createWindow, .setupRestartMechanism, .setupIPC]

/-- `setupApp` control flow: request the lock; a secondary instance calls
`app.quit()` and returns before any registration; a primary registers its
handlers in source order. -/
def setupAppActions (gotTheLock : Bool) : List InitAction :=
  .requestLock ::
    (if gotTheLock then
      [.onSecondInstance, .onWhenReady, .onWindowAllClosed, .onActivate,
       .onBeforeQuit, .onWillQuit, .onUncaughtException,
       .onUnhandledRejection, .onSigusr1, .onSigint]
    else [.appQuitBare])

/-- Exit code of an `app.quit()` teardown: when the `will-quit` handler is
registered it calls `process.exit(isManualQuit ? 0 : 1)`; with no
registered handler Electron terminates with its default exit code 0. -/
def quitTeardownCode (willQuitRegistered isManualQuit : Bool) : Nat :=
  if willQuitRegistered then (if isManualQuit then 0 else 1) else 0

end InitModel

namespace MonitorModel

/-- The steps of the `SystemResilientApp` constructor of src/src/main.js
(lines 7-20) in program order: field initialisation, `cleanupQuitSignal()`
(lines 474-484, deleting /tmp/intentional_quit.signal), then `setupApp()`
whose first statement is the single-instance lock request (line 24). -/
inductive CtorAction
  | initFields
  | cleanupQuitSignal
  | requestLock
  | quitSecondary
  | continueInit
deriving DecidableEq, Repr

/-- The ordered action trace of constructing the app, for either
single-instance lock outcome. -/
def constructorActions (gotTheLock : Bool) : List CtorAction :=
  [.initFields, .cleanupQuitSignal, .requestLock] ++
    (if gotTheLock then [.continueInit] else [.quitSecondary])

/-- The filesystem as seen by the heartbeat monitor:
/tmp/intentional_quit.signal and the mtime of /tmp/resilient_app_heartbeat. -/
structure MonFS where
  quitSignal : Bool
  heartbeat : Option Nat
deriving DecidableEq, Repr

/-- Filesystem effect of one constructor action: only `cleanupQuitSignal`
touches it (it deletes the quit-signal file if present). -/
def applyCtorAction (fs : MonFS) : CtorAction → MonFS
  | .cleanupQuitSignal => { fs with quitSignal := false }
  | _ => fs

/-- Filesystem after running a constructor action trace. -/
def runCtor (fs : MonFS) (acts : List CtorAction) : MonFS :=
  acts.foldl applyCtorAction fs

/-- One decision of the monitoring loop. -/
inductive MonitorDecision
  | stopMonitor
  | appAlive
  | startApp
deriving DecidableEq, Repr

/-- One iteration of the heartbeat_monitor.sh main loop (lines 51-84):
a present quit signal stops the monitor; otherwise a heartbeat younger
than 2 seconds means the app is alive, and a stale or missing heartbeat
triggers a (re)start of the app. -/
def monitorStep (fs : MonFS) (now : Nat) : MonitorDecision :=
  if fs.quitSignal then .stopMonitor
  else
    match fs.heartbeat with
    | some t => if now - t < 2 then .appAlive else .startApp
    | none => .startApp

end MonitorModel

/-
Helper lemmas (shared; not tied to any single claim).
-/

namespace TaskExecutor

/-- A resolved promise absorbs every later event. -/
theorem foldl_resolveOnce_some (r : TaskResult) (evs : List WorkerEv) :
    evs.foldl resolveOnce (some r) = some r := by
  induction evs with
  | nil => rfl
  | cons e evs ih => simpa [resolveOnce] using ih

end TaskExecutor

namespace ResilientApp

/-- An exited process ignores all further events. -/
theorem run_frozen (tr : List Ev) (c : Ctrl) (h : c.exited.isSome = true) :
    run c tr = c := by
  induction tr with
  | nil => rfl
  | cons e tr ih => simpa [run, step, h] using ih

end ResilientApp

/-
Claim theorems: Background Task Executor (C5, C6).
-/

namespace TaskExecutor

/-- C5 counterexample: two start-heavy-task invocations from the idle
executor leave two task runs Running at once — the second request is
neither rejected nor queued, refuting "at most one Task Run is Running
at any time". -/
theorem startHeavyTask_twice_two_running :
    runningCount (startHeavyTask (startHeavyTask execInit)) = 2 ∧
    ¬ runningCount (startHeavyTask (startHeavyTask execInit)) ≤ 1 := by
  decide

/-- C5 (amended): the start-heavy-task handler applies no concurrency
guard at all — every invocation spawns one further worker immediately,
so a request arriving while runs are active increases the number of
Running task runs by exactly one instead of rejecting or queueing. -/
theorem startHeavyTask_unconditional_spawn (s : ExecState) :
    runningCount (startHeavyTask s) = runningCount s + 1 ∧
    (startHeavyTask s).runs.length = s.runs.length + 1 := by
  constructor
  · simp [runningCount, startHeavyTask, List.filter_append, isRunning]
  · simp [startHeavyTask]

/-- C6 counterexample: a worker abnormal exit (close with a non-zero exit
code) resolves the promise with success = true carrying the code, not
with a success = false failure, refuting the claimed resolution value. -/
theorem close_nonzero_resolves_success :
    promiseResult [WorkerEv.close (some 1)] = some (TaskResult.ok (some 1)) ∧
    TaskResult.success (TaskResult.ok (some 1)) = true ∧ (1 : Int) ≠ 0 := by
  decide

/-- C6 (amended): the start-heavy-task future resolves exactly once, the
first observed worker event winning and all later close/error events
being ignored; any close event (normal or abnormal worker exit) yields
success = true carrying the worker's exit code, and only a spawn error
yields success = false carrying the reason. -/
theorem promise_resolves_once_first_wins (ev : WorkerEv) (evs : List WorkerEv) :
    promiseResult (ev :: evs) = some (resultOf ev) ∧
    (∀ code, resultOf (WorkerEv.close code) = TaskResult.ok code) ∧
    (∀ r, resultOf (WorkerEv.spawnError r) = TaskResult.err r) := by
  refine ⟨?_, fun _ => rfl, fun _ => rfl⟩
  simp [promiseResult, resolveOnce, foldl_resolveOnce_some]

end TaskExecutor

/-
Claim theorems: initialization of a secondary instance (C9).
-/

namespace InitModel

/-- C9: when single-instance lock acquisition fails, `setupApp` performs
exactly the lock request and a bare `app.quit()`: it registers no
handlers (in particular no fault handlers and no will-quit classifier),
never reaches the whenReady body that creates the window, installs the
restart mechanism, and registers the worker-spawning IPC, and the bare
quit — with no will-quit handler registered — terminates with exit code
0, the Clean disposition. -/
theorem secondary_instance_quits_clean :
    setupAppActions false = [InitAction.requestLock, InitAction.appQuitBare] ∧
    InitAction.onWhenReady ∉ setupAppActions false ∧
    InitAction.onBeforeQuit ∉ setupAppActions false ∧
    InitAction.onWillQuit ∉ setupAppActions false ∧
    InitAction.onUncaughtException ∉ setupAppActions false ∧
    InitAction.onUnhandledRejection ∉ setupAppActions false ∧
    InitAction.createWindow ∉ setupAppActions false ∧
    InitAction.setupRestartMechanism ∉ setupAppActions false ∧
    InitAction.setupIPC ∉ setupAppActions false ∧
    InitAction.createWindow ∈ whenReadyBody ∧
    InitAction.setupRestartMechanism ∈ whenReadyBody ∧
    InitAction.setupIPC ∈ whenReadyBody ∧
    quitTeardownCode false false = 0 ∧
    quitTeardownCode false true = 0 := by
  decide

end InitModel

/-
Claim theorems: quit-signal cleanup at startup and the heartbeat
monitor (C10).
-/

namespace MonitorModel

/-- C10: the constructor deletes the intentional-quit signal file before
the single-instance lock is requested (the cleanup action strictly
precedes the lock request in the constructor's action order), for both
lock outcomes — so even a duplicate Secondary instance erases it — and
with the signal erased the heartbeat monitor no longer stops: where a
present signal would make it stop, the post-constructor state (signal
gone, no fresh heartbeat) makes it start the app again. -/
theorem constructor_erases_quit_signal (fs : MonFS) (lock : Bool) :
    (runCtor fs (constructorActions lock)).quitSignal = false ∧
    (constructorActions lock).take 3 =
      [CtorAction.initFields, CtorAction.cleanupQuitSignal, CtorAction.requestLock] ∧
    (∀ hb now, monitorStep { quitSignal := true, heartbeat := hb } now =
      MonitorDecision.stopMonitor) ∧
    (∀ now, monitorStep
      { quitSignal := (runCtor fs (constructorActions lock)).quitSignal,
        heartbeat := none } now = MonitorDecision.startApp) := by
  refine ⟨?_, ?_, ?_, ?_⟩
  · cases lock <;> simp [runCtor, constructorActions, applyCtorAction]
  · cases lock <;> rfl
  · intro hb now; simp [monitorStep]
  · intro now
    have h : (runCtor fs (constructorActions lock)).quitSignal = false := by
      cases lock <;> simp [runCtor, constructorActions, applyCtorAction]
    rw [h]
    simp [monitorStep]

end MonitorModel

/-
Claim theorems: exit disposition and the fault-relaunch path (C1, C2).
-/

namespace ResilientApp

/-- C1 counterexample: from a normal startup, an uncaught fault followed
by the relaunch timer makes the process exit with code 0 although the
sanctioned exit control (force-quit IPC or tray item) was never invoked —
refuting "exit code 0 only if the sanctioned exit control was invoked"
and "the uncaught-fault relaunch path exits with a non-zero code". -/
theorem fault_relaunch_clean_exit_without_sanction :
    (run (boot (mkCtrl ⟨false⟩ ⟨false, false⟩ true)) [Ev.fault, Ev.relaunchTimer]).exited
      = some { code := 0, relaunchScheduled := true } ∧
    Ev.forceQuitIPC ∉ [Ev.fault, Ev.relaunchTimer] ∧
    Ev.trayForceQuit ∉ [Ev.fault, Ev.relaunchTimer] := by
  decide

/-- C2 counterexample: the uncaught-fault relaunch path terminates the
process with exit code 0 via app.exit(0) — not with a non-zero code as
claimed (the will-quit classifier, which would have returned 1, is
bypassed by app.exit). -/
theorem fault_relaunch_exit_code_is_zero :
    (run (boot (mkCtrl ⟨true⟩ ⟨false, false⟩ true)) [Ev.fault, Ev.relaunchTimer]).exited
      = some { code := 0, relaunchScheduled := true } := by
  decide

/-- C2 (amended): on an uncaught fault the handler schedules a callback
with a delay of at least 1 second; when it fires it schedules a relaunch
of the process, records a quit intent that is not user-requested
(isQuitting is raised while isManualQuit is left unchanged), and
terminates immediately with exit code 0 via app.exit, bypassing the
will-quit classifier. -/
theorem fault_handler_delay_relaunch_exit (c : Ctrl) (h : c.exited = none) :
    (∃ d, (step c Ev.fault).pendingRelaunch = some d ∧ 1000 ≤ d) ∧
    (step (step c Ev.fault) Ev.relaunchTimer).relaunched = true ∧
    (step (step c Ev.fault) Ev.relaunchTimer).isQuitting = true ∧
    (step (step c Ev.fault) Ev.relaunchTimer).isManualQuit = c.isManualQuit ∧
    (step (step c Ev.fault) Ev.relaunchTimer).exited
      = some { code := 0, relaunchScheduled := true } := by
  simp [step, h, restartAppSchedule, fireRelaunch]

/-- Witness for the fault-handler theorem at the concrete post-startup
state of a normal launch. -/
theorem fault_handler_delay_relaunch_exit_witness :
    (∃ d, (step (boot (mkCtrl ⟨false⟩ ⟨false, false⟩ true)) Ev.fault).pendingRelaunch
        = some d ∧ 1000 ≤ d) ∧
    (step (step (boot (mkCtrl ⟨false⟩ ⟨false, false⟩ true)) Ev.fault) Ev.relaunchTimer).exited
      = some { code := 0, relaunchScheduled := true } :=
  ⟨(fault_handler_delay_relaunch_exit (boot (mkCtrl ⟨false⟩ ⟨false, false⟩ true)) (by decide)).1,
   (fault_handler_delay_relaunch_exit (boot (mkCtrl ⟨false⟩ ⟨false, false⟩ true)) (by decide)).2.2.2.2⟩

end ResilientApp

namespace ResilientApp

/-- The headless invariant is preserved by every event that is not a
show-UI signal. -/
theorem headlessInv_step (c : Ctrl) (e : Ev) (hinv : HeadlessInv c)
    (ha : e ≠ Ev.activate) (hs : e ≠ Ev.sigusr1) : HeadlessInv (step c e) := by
  obtain ⟨h1, h2, h3, h4, h5⟩ := hinv
  by_cases hex : c.exited.isSome = true
  · simpa [step, hex, HeadlessInv] using ⟨h1, h2, h3, h4, h5⟩
  · cases e <;>
      first
        | exact absurd rfl ha
        | exact absurd rfl hs
        | ((simp only [step, hex, if_false, Bool.false_eq_true, readyToShowEv, closeGestureEv,
              appQuit, beforeQuitEv, windowDestroyedEv, windowAllClosedEv, timerCreateEv,
              forceQuit, proceedQuit, closedHandler, restartAppSchedule, fireRelaunch,
              hideWindow, showFocus, windowAlive, HeadlessInv, h1, h2, h3, h4, h5]) <;>
           (repeat' split) <;> simp_all)

/-- The headless invariant is preserved by every event sequence free of
show-UI signals. -/
theorem headlessInv_run (tr : List Ev) (c : Ctrl) (hinv : HeadlessInv c)
    (h : ∀ e ∈ tr, e ≠ Ev.activate ∧ e ≠ Ev.sigusr1) : HeadlessInv (run c tr) := by
  induction tr generalizing c with
  | nil => exact hinv
  | cons e tr ih =>
    have he := h e (List.mem_cons_self e tr)
    exact ih (step c e) (headlessInv_step c e hinv he.1 he.2)
      (fun e' he' => h e' (List.mem_cons_of_mem e he'))

/-- The resilience invariant is preserved by every close/quit gesture
event. -/
theorem resilientInv_step (c : Ctrl) (e : Ev) (hinv : ResilientInv c)
    (hg : gestureEv e = true) : ResilientInv (step c e) := by
  obtain ⟨h1, h2, h3, h4⟩ := hinv
  have hex : c.exited.isSome = false := by simp [h3]
  cases e <;>
    first
      | exact absurd hg (by decide)
      | ((simp only [step, hex, if_false, Bool.false_eq_true, readyToShowEv, closeGestureEv,
            appQuit, beforeQuitEv, windowDestroyedEv, windowAllClosedEv, timerCreateEv,
            createWindow, checkIfRestartAfterKill, markAppAsRunning, activateEv, showUI,
            hideWindow, showFocus, closedHandler, windowAlive, ResilientInv,
            h1, h2, h3]) <;>
         (repeat' split) <;> simp_all [windowAlive] <;>
         (try (rename_i w hw heq; subst heq; simp_all)))

/-- The resilience invariant is preserved by every sequence of close/quit
gesture events. -/
theorem resilientInv_run (tr : List Ev) (c : Ctrl) (hinv : ResilientInv c)
    (h : ∀ e ∈ tr, gestureEv e = true) : ResilientInv (run c tr) := by
  induction tr generalizing c with
  | nil => exact hinv
  | cons e tr ih =>
    exact ih (step c e) (resilientInv_step c e hinv (h e (List.mem_cons_self e tr)))
      (fun e' he' => h e' (List.mem_cons_of_mem e he'))

end ResilientApp

namespace ResilientApp

/-- No single event resets a raised isQuitting or isManualQuit flag. -/
theorem quitFlags_monotone_step (c : Ctrl) (e : Ev) :
    (c.isQuitting = true → (step c e).isQuitting = true) ∧
    (c.isManualQuit = true → (step c e).isManualQuit = true) := by
  by_cases hex : c.exited.isSome = true
  · simp [step, hex]
  · cases e <;>
      ((simp only [step, hex, if_false, Bool.false_eq_true, readyToShowEv, closeGestureEv,
          appQuit, beforeQuitEv, windowDestroyedEv, windowAllClosedEv, timerCreateEv,
          createWindow, checkIfRestartAfterKill, markAppAsRunning, activateEv, showUI,
          forceQuit, proceedQuit, closedHandler, restartAppSchedule, fireRelaunch,
          hideWindow, showFocus, windowAlive]) <;>
       (repeat' split) <;> simp_all)

/-- A step that leaves the process alive also leaves the quit and
relaunch flags down. -/
theorem step_keeps_alive_flags (c : Ctrl) (e : Ev) (he : c.exited = none)
    (hq : c.isQuitting = false) (hr : c.relaunched = false)
    (h' : (step c e).exited = none) :
    (step c e).isQuitting = false ∧ (step c e).relaunched = false := by
  have hex : c.exited.isSome = false := by simp [he]
  cases e <;>
    ((simp only [step, hex, if_false, Bool.false_eq_true, readyToShowEv, closeGestureEv,
        appQuit, beforeQuitEv, windowDestroyedEv, windowAllClosedEv, timerCreateEv,
        createWindow, checkIfRestartAfterKill, markAppAsRunning, activateEv, showUI,
        forceQuit, proceedQuit, closedHandler, restartAppSchedule, fireRelaunch,
        hideWindow, showFocus, windowAlive, hq, hr] at h' ⊢) <;>
     (repeat' split at h') <;> (repeat' split) <;> simp_all)

/-- Any single step that terminates the process exits with code 0, and is
either the sanctioned exit control or the fault-relaunch timer. -/
theorem step_exit_shape (c : Ctrl) (e : Ev) (he : c.exited = none)
    (hq : c.isQuitting = false) (hr : c.relaunched = false) (x : ExitInfo)
    (h' : (step c e).exited = some x) :
    x.code = 0 ∧
      ((x.relaunchScheduled = false ∧ (e = Ev.forceQuitIPC ∨ e = Ev.trayForceQuit)) ∨
       (x.relaunchScheduled = true ∧ e = Ev.relaunchTimer)) := by
  have hex : c.exited.isSome = false := by simp [he]
  cases e <;>
    ((simp only [step, hex, if_false, Bool.false_eq_true, readyToShowEv, closeGestureEv,
        appQuit, beforeQuitEv, windowDestroyedEv, windowAllClosedEv, timerCreateEv,
        createWindow, checkIfRestartAfterKill, markAppAsRunning, activateEv, showUI,
        forceQuit, proceedQuit, closedHandler, restartAppSchedule, fireRelaunch,
        hideWindow, showFocus, windowAlive, willQuitCode, hq, hr, he] at h' ⊢) <;>
     (repeat' split at h') <;> (try simp_all) <;> (try subst h') <;> (try simp_all))

/-- Over any event sequence from a live, non-quitting state, a recorded
termination has exit code 0 and stems from the sanctioned exit control or
from the fault-relaunch timer. -/
theorem run_exit_classify (tr : List Ev) : ∀ c : Ctrl, c.exited = none →
    c.isQuitting = false → c.relaunched = false → ∀ x : ExitInfo,
    (run c tr).exited = some x →
    x.code = 0 ∧ (Ev.forceQuitIPC ∈ tr ∨ Ev.trayForceQuit ∈ tr ∨
      (x.relaunchScheduled = true ∧ Ev.relaunchTimer ∈ tr)) := by
  induction tr with
  | nil => intro c he _ _ x hx; rw [run, List.foldl_nil, he] at hx; exact absurd hx (by simp)
  | cons e tr ih =>
    intro c he hq hr x hx
    have hstep : run c (e :: tr) = run (step c e) tr := rfl
    rw [hstep] at hx
    cases h' : (step c e).exited with
    | none =>
      obtain ⟨hq', hr'⟩ := step_keeps_alive_flags c e he hq hr h'
      obtain ⟨hc, hm⟩ := ih (step c e) h' hq' hr' x hx
      refine ⟨hc, ?_⟩
      rcases hm with h | h | ⟨h, h2⟩
      · exact Or.inl (List.mem_cons_of_mem e h)
      · exact Or.inr (Or.inl (List.mem_cons_of_mem e h))
      · exact Or.inr (Or.inr ⟨h, List.mem_cons_of_mem e h2⟩)
    | some y =>
      rw [run_frozen tr (step c e) (by simp [h'])] at hx
      rw [h'] at hx
      have hxy : y = x := by injection hx
      subst hxy
      obtain ⟨hc, hsh⟩ := step_exit_shape c e he hq hr y h'
      refine ⟨hc, ?_⟩
      rcases hsh with ⟨_, rfl | rfl⟩ | ⟨h1, rfl⟩
      · exact Or.inl (List.mem_cons_self _ _)
      · exact Or.inr (Or.inl (List.mem_cons_self _ _))
      · exact Or.inr (Or.inr ⟨h1, List.mem_cons_self _ _⟩)

end ResilientApp

namespace ResilientApp

/-- A close gesture on a live window of a non-quitting controller is
vetoed: the window survives, hidden. -/
theorem closeGesture_veto (c : Ctrl) (he : c.exited = none) (hq : c.isQuitting = false)
    (hal : windowAlive c = true) :
    windowAlive (step c Ev.closeGesture) = true ∧
    windowVisible (step c Ev.closeGesture) = false := by
  have hex : c.exited.isSome = false := by simp [he]
  cases hmw : c.mainWindow with
  | none => simp [windowAlive, hmw] at hal
  | some w =>
    have hd : w.destroyed = false := by simpa [windowAlive, hmw] using hal
    cases hdw : c.darwin <;>
      simp [step, hex, closeGestureEv, hideWindow, windowAlive, windowVisible,
        hmw, hd, hq, hdw]

/-- C1 (amended): for every startup configuration and event sequence, a
recorded process termination has exit code 0 precisely when the sanctioned
exit control (force-quit IPC or tray item) was invoked or the termination
is the uncaught-fault relaunch path (which exits 0 via app.exit after
scheduling a relaunch, bypassing the will-quit classifier); the will-quit
classifier itself maps a manual quit to 0 and anything else to the
non-zero code 1, but no event sequence reaches it without the sanctioned
control. -/
theorem exit_code_zero_iff_sanctioned_or_relaunch (env : Env) (fs : FS) (d : Bool)
    (tr : List Ev) (x : ExitInfo)
    (h : (run (boot (mkCtrl env fs d)) tr).exited = some x) :
    (x.code = 0 ↔
      ((Ev.forceQuitIPC ∈ tr ∨ Ev.trayForceQuit ∈ tr) ∨ x.relaunchScheduled = true)) ∧
    willQuitCode true = 0 ∧ willQuitCode false = 1 := by
  obtain ⟨lar⟩ := env
  obtain ⟨rm, qs⟩ := fs
  have hb : (boot (mkCtrl ⟨lar⟩ ⟨rm, qs⟩ d)).exited = none ∧
      (boot (mkCtrl ⟨lar⟩ ⟨rm, qs⟩ d)).isQuitting = false ∧
      (boot (mkCtrl ⟨lar⟩ ⟨rm, qs⟩ d)).relaunched = false := by
    cases lar <;> cases rm <;> cases qs <;> cases d <;> decide
  obtain ⟨hc, hm⟩ := run_exit_classify tr _ hb.1 hb.2.1 hb.2.2 x h
  refine ⟨⟨fun _ => ?_, fun _ => hc⟩, rfl, rfl⟩
  rcases hm with h1 | h1 | ⟨h1, _⟩
  · exact Or.inl (Or.inl h1)
  · exact Or.inl (Or.inr h1)
  · exact Or.inr h1

/-- Witness for the exit-code classification at the concrete trace that
invokes the sanctioned exit control once. -/
theorem exit_code_zero_iff_witness :
    (ExitInfo.code { code := 0, relaunchScheduled := false } = 0 ↔
      ((Ev.forceQuitIPC ∈ [Ev.forceQuitIPC] ∨ Ev.trayForceQuit ∈ [Ev.forceQuitIPC]) ∨
        ExitInfo.relaunchScheduled { code := 0, relaunchScheduled := false } = true)) ∧
    willQuitCode true = 0 ∧ willQuitCode false = 1 :=
  exit_code_zero_iff_sanctioned_or_relaunch ⟨false⟩ ⟨false, false⟩ true [Ev.forceQuitIPC]
    { code := 0, relaunchScheduled := false } (by decide)

/-- C3: under the supervisor-launch flag, a startup that finds the
liveness/restart marker creates its window and reaches Visible at
ready-to-show without any show-UI signal; a startup that finds no marker
creates no window and stays headless across every event sequence free of
show-UI signals, while a SIGUSR1 show-UI signal from that headless state
does create the window (Visible after ready-to-show). -/
theorem marker_flag_visibility (tr : List Ev)
    (h : ∀ e ∈ tr, e ≠ Ev.activate ∧ e ≠ Ev.sigusr1) :
    (windowVisible (run (boot (mkCtrl ⟨true⟩ ⟨true, false⟩ true)) [Ev.readyToShow]) = true ∧
     (run (boot (mkCtrl ⟨true⟩ ⟨true, false⟩ true)) [Ev.readyToShow]).isHeadlessMode = false) ∧
    ((run (boot (mkCtrl ⟨true⟩ ⟨false, false⟩ true)) tr).isHeadlessMode = true ∧
     (run (boot (mkCtrl ⟨true⟩ ⟨false, false⟩ true)) tr).mainWindow = none) ∧
    windowAlive (step (boot (mkCtrl ⟨true⟩ ⟨false, false⟩ true)) Ev.sigusr1) = true ∧
    windowVisible
      (run (boot (mkCtrl ⟨true⟩ ⟨false, false⟩ true)) [Ev.sigusr1, Ev.readyToShow]) = true := by
  refine ⟨by decide, ?_, by decide, by decide⟩
  have hbase : HeadlessInv (boot (mkCtrl ⟨true⟩ ⟨false, false⟩ true)) := by
    unfold HeadlessInv
    decide
  have hinv := headlessInv_run tr (boot (mkCtrl ⟨true⟩ ⟨false, false⟩ true)) hbase h
  exact ⟨hinv.2.1, hinv.2.2.1⟩

/-- Witness for the headless/visible startup theorem at the event
sequence consisting of one fault event. -/
theorem marker_flag_visibility_witness :
    (windowVisible (run (boot (mkCtrl ⟨true⟩ ⟨true, false⟩ true)) [Ev.readyToShow]) = true ∧
     (run (boot (mkCtrl ⟨true⟩ ⟨true, false⟩ true)) [Ev.readyToShow]).isHeadlessMode = false) ∧
    ((run (boot (mkCtrl ⟨true⟩ ⟨false, false⟩ true)) [Ev.fault]).isHeadlessMode = true ∧
     (run (boot (mkCtrl ⟨true⟩ ⟨false, false⟩ true)) [Ev.fault]).mainWindow = none) ∧
    windowAlive (step (boot (mkCtrl ⟨true⟩ ⟨false, false⟩ true)) Ev.sigusr1) = true ∧
    windowVisible
      (run (boot (mkCtrl ⟨true⟩ ⟨false, false⟩ true)) [Ev.sigusr1, Ev.readyToShow]) = true :=
  marker_flag_visibility [Ev.fault] (by decide)

/-- C4 (amended): on a startup (no live window), the running marker is
written exactly when the supervisor-launch flag is set and no marker was
present - the headless entry, which creates no window at all - and any
pre-existing marker is consumed by the restart-after-kill check; clean
teardown via the sanctioned exit control leaves the marker untouched
(cleanupRunningMarker is never invoked). -/
theorem marker_write_semantics (c : Ctrl) (h : windowAlive c = false) :
    ((createWindow c).fs.runningMarker
        = (c.env.launchAgentRestart && !c.fs.runningMarker)) ∧
    ((createWindow c).isHeadlessMode
        = (c.env.launchAgentRestart && !c.fs.runningMarker)) ∧
    ((c.env.launchAgentRestart && !c.fs.runningMarker) = true →
        (createWindow c).mainWindow = none) ∧
    (step c Ev.forceQuitIPC).fs.runningMarker = c.fs.runningMarker ∧
    (step c Ev.trayForceQuit).fs.runningMarker = c.fs.runningMarker := by
  have hfs : (forceQuit c).fs = c.fs := by
    simp only [forceQuit, appQuit, beforeQuitEv, proceedQuit, closedHandler, hideWindow]
    (repeat' split) <;> simp_all
  have h4 : (step c Ev.forceQuitIPC).fs.runningMarker = c.fs.runningMarker := by
    by_cases hex : c.exited.isSome = true
    · simp [step, hex]
    · simp only [step, hex, if_false, Bool.false_eq_true]
      rw [hfs]
  have h5 : (step c Ev.trayForceQuit).fs.runningMarker = c.fs.runningMarker := by
    by_cases hex : c.exited.isSome = true
    · simp [step, hex]
    · simp only [step, hex, if_false, Bool.false_eq_true]
      rw [hfs]
  refine ⟨?_, ?_, ?_, h4, h5⟩ <;>
    (simp only [createWindow, h, if_false, Bool.false_eq_true, checkIfRestartAfterKill,
       markAppAsRunning]) <;> (repeat' split) <;> simp_all

/-- Witness for the marker-write semantics at the supervisor-flagged
marker-free startup state. -/
theorem marker_write_semantics_witness :
    ((createWindow (mkCtrl ⟨true⟩ ⟨false, false⟩ true)).fs.runningMarker
        = ((mkCtrl ⟨true⟩ ⟨false, false⟩ true).env.launchAgentRestart
            && !(mkCtrl ⟨true⟩ ⟨false, false⟩ true).fs.runningMarker)) ∧
    ((createWindow (mkCtrl ⟨true⟩ ⟨false, false⟩ true)).isHeadlessMode
        = ((mkCtrl ⟨true⟩ ⟨false, false⟩ true).env.launchAgentRestart
            && !(mkCtrl ⟨true⟩ ⟨false, false⟩ true).fs.runningMarker)) ∧
    (((mkCtrl ⟨true⟩ ⟨false, false⟩ true).env.launchAgentRestart
        && !(mkCtrl ⟨true⟩ ⟨false, false⟩ true).fs.runningMarker) = true →
        (createWindow (mkCtrl ⟨true⟩ ⟨false, false⟩ true)).mainWindow = none) ∧
    (step (mkCtrl ⟨true⟩ ⟨false, false⟩ true) Ev.forceQuitIPC).fs.runningMarker
        = (mkCtrl ⟨true⟩ ⟨false, false⟩ true).fs.runningMarker ∧
    (step (mkCtrl ⟨true⟩ ⟨false, false⟩ true) Ev.trayForceQuit).fs.runningMarker
        = (mkCtrl ⟨true⟩ ⟨false, false⟩ true).fs.runningMarker :=
  marker_write_semantics (mkCtrl ⟨true⟩ ⟨false, false⟩ true) (by decide)

/-- C7: for every sequence of window-close and quit gestures (and the
window events and timers they trigger) that does not include the
sanctioned exit control, the controller never exits, the quit flag stays
down, any missing surface has a re-creation already scheduled - so the
surface never reaches terminal Destroyed - and a close gesture on a live
window is vetoed, leaving the surface Hidden rather than Destroyed. -/
theorem no_terminal_destroyed (d : Bool) (tr : List Ev)
    (hg : ∀ e ∈ tr, gestureEv e = true) :
    ResilientInv (run (boot (mkCtrl ⟨false⟩ ⟨false, false⟩ d)) tr) ∧
    (windowAlive (run (boot (mkCtrl ⟨false⟩ ⟨false, false⟩ d)) tr) = true →
      windowAlive (step (run (boot (mkCtrl ⟨false⟩ ⟨false, false⟩ d)) tr)
          Ev.closeGesture) = true ∧
      windowVisible (step (run (boot (mkCtrl ⟨false⟩ ⟨false, false⟩ d)) tr)
          Ev.closeGesture) = false) := by
  have hbase : ResilientInv (boot (mkCtrl ⟨false⟩ ⟨false, false⟩ d)) := by
    unfold ResilientInv
    cases d <;> decide
  have hinv := resilientInv_run tr (boot (mkCtrl ⟨false⟩ ⟨false, false⟩ d)) hbase hg
  exact ⟨hinv, fun hal => closeGesture_veto _ hinv.2.2.1 hinv.2.1 hal⟩

/-- Witness for the no-terminal-Destroyed theorem at the singleton
close-gesture trace. -/
theorem no_terminal_destroyed_witness :
    ResilientInv (run (boot (mkCtrl ⟨false⟩ ⟨false, false⟩ false)) [Ev.closeGesture]) ∧
    (windowAlive (run (boot (mkCtrl ⟨false⟩ ⟨false, false⟩ false)) [Ev.closeGesture]) = true →
      windowAlive (step (run (boot (mkCtrl ⟨false⟩ ⟨false, false⟩ false)) [Ev.closeGesture])
          Ev.closeGesture) = true ∧
      windowVisible (step (run (boot (mkCtrl ⟨false⟩ ⟨false, false⟩ false)) [Ev.closeGesture])
          Ev.closeGesture) = false) :=
  no_terminal_destroyed false [Ev.closeGesture] (by decide)

/-- C8: the quit intent is write-once - once isQuitting (and likewise
isManualQuit) has been set, no subsequent event sequence ever resets it:
no code path assigns false to either flag after construction. -/
theorem quit_intent_write_once (c : Ctrl) (tr : List Ev) :
    (c.isQuitting = true → (run c tr).isQuitting = true) ∧
    (c.isManualQuit = true → (run c tr).isManualQuit = true) := by
  induction tr generalizing c with
  | nil => exact ⟨id, id⟩
  | cons e tr ih =>
    have hs := quitFlags_monotone_step c e
    have hr := ih (step c e)
    exact ⟨fun h => hr.1 (hs.1 h), fun h => hr.2 (hs.2 h)⟩

/-- Witness for quit-intent monotonicity at a concrete state with both
flags raised and a three-event continuation. -/
theorem quit_intent_write_once_witness :
    (run { mkCtrl ⟨false⟩ ⟨false, false⟩ true with
            isQuitting := true, isManualQuit := true }
        [Ev.quitGesture, Ev.closeGesture, Ev.fault]).isQuitting = true ∧
    (run { mkCtrl ⟨false⟩ ⟨false, false⟩ true with
            isQuitting := true, isManualQuit := true }
        [Ev.quitGesture, Ev.closeGesture, Ev.fault]).isManualQuit = true :=
  ⟨(quit_intent_write_once _ _).1 rfl, (quit_intent_write_once _ _).2 rfl⟩

end ResilientApp

namespace ResilientApp

/-- C4 counterexample: a normal (visible) startup writes no running
marker although a window is created, refuting "written on every startup";
and a headless instance that exits cleanly through the sanctioned exit
control leaves its running marker behind, refuting "removed on clean
teardown". -/
theorem marker_not_on_every_startup_not_removed_at_teardown :
    (boot (mkCtrl ⟨false⟩ ⟨false, false⟩ true)).fs.runningMarker = false ∧
    windowAlive (boot (mkCtrl ⟨false⟩ ⟨false, false⟩ true)) = true ∧
    (run (boot (mkCtrl ⟨true⟩ ⟨false, false⟩ true)) [Ev.forceQuitIPC]).exited
      = some { code := 0, relaunchScheduled := false } ∧
    (run (boot (mkCtrl ⟨true⟩ ⟨false, false⟩ true)) [Ev.forceQuitIPC]).fs.runningMarker
      = true := by
  decide

end ResilientApp
